import Mathlib

/-!
# tc2100: Observation codec and stream framer

A shallow embedding of the TC2100 thermometer message codec and stream
framer.  The authoritative behaviour is the framed 18-byte `Observation`
format exercised by `tests/test_observation.py`; the module implementing
it (`tc2100/observation.py`, framed variant) is not present under `src/`
(the file there is the superseded pre-framing variant), so the codec and
framer below are modelled from the specification and validated against
the concrete byte vectors of the tests.

Bytes are `Nat` values below 256; machine 16-bit signed integers are
`Int` with explicit two's-complement reduction modulo 2^16; temperatures
are either the NaN sentinel or an exact rational value.
-/

namespace TC2100

/-- A unit of temperature (`TemperatureUnit`): Celsius, Fahrenheit or
Kelvin, with wire codes 1, 2, 3. -/
inductive TemperatureUnit
  | C
  | F
  | K
deriving DecidableEq

/-- Wire code of a temperature unit. -/
def TemperatureUnit.toNat : TemperatureUnit → Nat
  | .C => 1
  | .F => 2
  | .K => 3

/-- Fallible conversion from a wire code to a temperature unit; fails on
values outside the defined enumerated range. -/
def TemperatureUnit.ofNat? : Nat → Option TemperatureUnit
  | 1 => some .C
  | 2 => some .F
  | 3 => some .K
  | _ => none

/-- The member name of a temperature unit, as used for string-keyed
member lookup. -/
def TemperatureUnit.toName : TemperatureUnit → String
  | .C => "C"
  | .F => "F"
  | .K => "K"

/-- String-keyed member lookup for `TemperatureUnit`; fails on a string
that is not the name of a member. -/
def TemperatureUnit.ofName? : String → Option TemperatureUnit
  | "C" => some .C
  | "F" => some .F
  | "K" => some .K
  | _ => none

/-- A type of thermocouple (`ThermocoupleType`), with wire codes 1-7. -/
inductive ThermocoupleType
  | K
  | J
  | T
  | E
  | R
  | S
  | N
deriving DecidableEq

/-- Wire code of a thermocouple type. -/
def ThermocoupleType.toNat : ThermocoupleType → Nat
  | .K => 1
  | .J => 2
  | .T => 3
  | .E => 4
  | .R => 5
  | .S => 6
  | .N => 7

/-- Fallible conversion from a wire code to a thermocouple type; fails
on values outside the defined enumerated range. -/
def ThermocoupleType.ofNat? : Nat → Option ThermocoupleType
  | 1 => some .K
  | 2 => some .J
  | 3 => some .T
  | 4 => some .E
  | 5 => some .R
  | 6 => some .S
  | 7 => some .N
  | _ => none

/-- The member name of a thermocouple type, as used for string-keyed
member lookup. -/
def ThermocoupleType.toName : ThermocoupleType → String
  | .K => "K"
  | .J => "J"
  | .T => "T"
  | .E => "E"
  | .R => "R"
  | .S => "S"
  | .N => "N"

/-- String-keyed member lookup for `ThermocoupleType`; fails on a string
that is not the name of a member. -/
def ThermocoupleType.ofName? : String → Option ThermocoupleType
  | "K" => some .K
  | "J" => some .J
  | "T" => some .T
  | "E" => some .E
  | "R" => some .R
  | "S" => some .S
  | "N" => some .N
  | _ => none

/-- A channel temperature: either the NaN sentinel ("no probe / invalid
reading") or a finite value, modelled as an exact rational. -/
inductive Temp
  | nan
  | val (q : ℚ)
deriving DecidableEq

/-- A dual-typed field that holds either a validated enum member or a
member-name string (the Python fields are annotated
`ThermocoupleType or str` / `TemperatureUnit or str`). -/
inductive EnumOrName (α : Type)
  | enum (a : α)
  | name (s : String)
deriving DecidableEq

/-- Resolve a dual-typed field to its enum member: an enum member stands
for itself, a string goes through the member-name lookup `f` (which can
fail, as Python `Enum[name]` raises on an unknown name). -/
def EnumOrName.resolve {α : Type} (f : String → Option α) : EnumOrName α → Option α
  | .enum a => some a
  | .name s => f s

/-- Modelled from the spec: the `Observation` record of the framed codec
(absent from src; only `tests/test_observation.py` exercises it).
`system_time` is the capture timestamp stamped at decode (an opaque
clock reading, never encoded); `meter_time` is the elapsed
meter duration in whole seconds, or `none` when absent;
`channel_temp` is the ordered sequence of channel temperatures. -/
structure Observation where
  system_time : Option Nat
  meter_time : Option Nat
  thermocouple_type : EnumOrName ThermocoupleType
  units : EnumOrName TemperatureUnit
  channel_temp : List Temp
deriving DecidableEq

/-- Decode failure: `formatError` models `FormatError` (bad header,
trailer or enumerated field); `sizeError` models the unpacking error on
a buffer that is not exactly 18 bytes. -/
inductive DecodeError
  | formatError
  | sizeError
deriving DecidableEq

/-- Encode failure: `shapeError` models `ShapeError` (`channel_temp` not
of length 2); `nameError` models the lookup error on a member-name
string that names no defined member. -/
inductive EncodeError
  | shapeError
  | nameError
deriving DecidableEq

/-- Two's-complement reading of a 16-bit word as a signed integer. -/
def toSigned16 (w : Nat) : Int :=
  if w < 32768 then (w : Int) else (w : Int) - 65536

/-- Big-endian two's-complement encoding of an integer as two bytes
(reduction modulo 2^16 makes the 16-bit truncation explicit). -/
def int16be (k : Int) : List Nat :=
  [(k % 65536).toNat / 256, (k % 65536).toNat % 256]

/-- Modelled from the spec: per-channel measurement-field encoder
(`Observation._encode_temperature_value` of the framed codec, absent
from src): a non-finite value is encoded as the placeholder -32768,
a finite value as `round(value * 10)`. -/
def Observation.encode_temperature_value : Temp → Int
  | .nan => -32768
  | .val q => round (q * 10)

/-- Modelled from the spec: per-channel status-flag encoder
(`Observation._encode_temperature_flag` of the framed codec, absent
from src): a non-finite value gets the invalid flag 0x40, a finite
value the valid flag 0x08 with no separate negative bit. -/
def Observation.encode_temperature_flag : Temp → Nat
  | .nan => 0x40
  | .val _ => 0x08

/-- Modelled from the spec: per-channel decoder
(`Observation._decode_temperature` of the framed codec, absent from
src): if the valid bit 0x08 is set in the status flag, the temperature
is the raw signed 16-bit value divided by 10; otherwise it is the NaN
sentinel, whatever the other bits and the measurement word hold. -/
def Observation.decode_temperature (w : Nat) (flag : Nat) : Temp :=
  if flag &&& 0x08 ≠ 0 then .val ((toSigned16 w : ℚ) / 10) else .nan

/-- Modelled from the spec: the three meter-time bytes written on
encode: a duration of `s` whole seconds is decomposed by successive
truncating division into hours, minutes and seconds. -/
def encodeMeterTime (s : Nat) : List Nat :=
  [s / 3600 % 256, s % 3600 / 60, s % 60]

/-- Modelled from the spec: `Observation.to_bytes` of the framed codec
(absent from src).  Emits the 18-byte wire record: header `65 14`,
three zero padding bytes, two big-endian signed 16-bit channel
measurements, the thermocouple-type code, the unit code with bit 0x80
set, the two channel status flags, the three meter-time bytes (zero
elapsed time when `meter_time` is absent) and the trailer `0D 0A`.
Fails with `shapeError` when `channel_temp` is not of length 2 and with
`nameError` when a string-typed enum field names no defined member. -/
def Observation.to_bytes (x : Observation) : Except EncodeError (List Nat) :=
  match x.channel_temp with
  | [t1, t2] =>
    match x.thermocouple_type.resolve ThermocoupleType.ofName?,
          x.units.resolve TemperatureUnit.ofName? with
    | some tc, some tu =>
      .ok (0x65 :: 0x14 :: 0 :: 0 :: 0 ::
        (int16be (encode_temperature_value t1) ++
         int16be (encode_temperature_value t2) ++
         tc.toNat :: (tu.toNat ||| 0x80) ::
         encode_temperature_flag t1 :: encode_temperature_flag t2 ::
         (encodeMeterTime (x.meter_time.getD 0) ++ [0x0D, 0x0A])))
    | _, _ => .error .nameError
  | _ => .error .shapeError

/-- Modelled from the spec: `Observation.from_bytes` of the framed codec
(absent from src).  Requires exactly 18 bytes; fails with `formatError`
when the header is not `65 14`, the trailer is not `0D 0A`, or the
thermocouple-type or unit byte masked with 0x0F is outside its
enumerated range.  The padding bytes are ignored; `system_time` is
stamped with the current clock reading `now`. -/
def Observation.from_bytes (now : Nat) (octets : List Nat) :
    Except DecodeError Observation :=
  match octets with
  | [b0, b1, _, _, _, v1h, v1l, v2h, v2l, tb, ub, f1, f2, hh, mm, ss, r0, r1] =>
    if b0 = 0x65 ∧ b1 = 0x14 ∧ r0 = 0x0D ∧ r1 = 0x0A then
      match ThermocoupleType.ofNat? (tb &&& 0x0F),
            TemperatureUnit.ofNat? (ub &&& 0x0F) with
      | some tc, some tu =>
        .ok { system_time := some now,
              meter_time := some (hh * 3600 + mm * 60 + ss),
              thermocouple_type := .enum tc,
              units := .enum tu,
              channel_temp := [decode_temperature (v1h * 256 + v1l) f1,
                               decode_temperature (v2h * 256 + v2l) f2] }
      | _, _ => .error .formatError
    else .error .formatError
  | _ => .error .sizeError

/-- First position of the two-byte header constant `65 14` in a buffer,
as the substring search of the framer's resynchronization step. -/
def findHeader : List Nat → Option Nat
  | [] => none
  | [_] => none
  | a :: b :: rest =>
    if a = 0x65 ∧ b = 0x14 then some 0
    else (findHeader (b :: rest)).map (· + 1)

/-- Modelled from the spec: `Observation.parse_stream` of the framer
(absent from src).  Scans for the header constant, discarding bytes
before its first occurrence (the whole buffer when it never occurs);
while at least 18 bytes remain at the resynchronized front, decodes the
18-byte slice there, appending the observation and advancing by 18
bytes on success, or advancing by a single byte on a decode failure;
stops when fewer than 18 bytes remain, returning them verbatim. -/
def Observation.parse_stream (now : Nat) (buf : List Nat) :
    List Observation × List Nat :=
  match findHeader buf with
  | none => ([], [])
  | some i =>
    if h18 : (buf.drop i).length < 18 then ([], buf.drop i)
    else
      match Observation.from_bytes now ((buf.drop i).take 18) with
      | .ok obs =>
        let r := Observation.parse_stream now ((buf.drop i).drop 18)
        (obs :: r.1, r.2)
      | .error _ => Observation.parse_stream now ((buf.drop i).drop 1)
termination_by buf.length
decreasing_by
  · simp only [List.length_drop] at h18 ⊢
    omega
  · simp only [List.length_drop] at h18 ⊢
    omega

/-! ## Helper lemmas -/

/-- Decoding the thermocouple-type byte written by the encoder recovers
the member: the wire code masked with 0x0F maps back to the member. -/
lemma ofNat?_toNat_land (tc : ThermocoupleType) :
    ThermocoupleType.ofNat? (tc.toNat &&& 0x0F) = some tc := by
  cases tc <;> decide

/-- Decoding the unit byte written by the encoder recovers the member:
the wire code with bit 0x80 set, masked with 0x0F, maps back. -/
lemma ofNat?_toNat_lor_land (tu : TemperatureUnit) :
    TemperatureUnit.ofNat? ((tu.toNat ||| 0x80) &&& 0x0F) = some tu := by
  cases tu <;> decide

/-- Member-name lookup inverts the member-name map for thermocouple
types. -/
lemma ofName?_toName_tc (tc : ThermocoupleType) :
    ThermocoupleType.ofName? tc.toName = some tc := by
  cases tc <;> rfl

/-- Member-name lookup inverts the member-name map for temperature
units. -/
lemma ofName?_toName_tu (tu : TemperatureUnit) :
    TemperatureUnit.ofName? tu.toName = some tu := by
  cases tu <;> rfl

/-- Reassembling the two bytes of `int16be k` and reading them as a
two's-complement 16-bit word recovers `k`, for `k` in signed 16-bit
range. -/
lemma toSigned16_int16be (k : Int) (h1 : -32768 ≤ k) (h2 : k ≤ 32767) :
    toSigned16 ((k % 65536).toNat / 256 * 256 + (k % 65536).toNat % 256) = k := by
  unfold toSigned16
  split_ifs <;> omega

/-- Rounding reproduces a value already expressed in tenths: for the
rational `k / 10`, `round ((k / 10) * 10) = k`. -/
lemma round_tenths (k : Int) : round (((k : ℚ) / 10) * 10) = k := by
  rw [div_mul_cancel₀ ((k : ℚ)) (by norm_num : (10 : ℚ) ≠ 0)]
  exact round_intCast k

/-- A channel temperature acceptable to the lossless round trip: the
NaN sentinel, or a value expressible in tenths with magnitude below
3276.8 (so that the numerator of tenths lies in signed 16-bit range). -/
def TempOk : Temp → Prop
  | .nan => True
  | .val q => ∃ k : Int, q = (k : ℚ) / 10 ∧ -32767 ≤ k ∧ k ≤ 32767

/-- Per-channel round trip: decoding the measurement word and status
flag written by the per-channel encoder reproduces the temperature. -/
lemma channel_roundtrip (t : Temp) (h : TempOk t) :
    Observation.decode_temperature
      ((Observation.encode_temperature_value t % 65536).toNat / 256 * 256 +
       (Observation.encode_temperature_value t % 65536).toNat % 256)
      (Observation.encode_temperature_flag t) = t := by
  cases t with
  | nan =>
    simp only [Observation.encode_temperature_flag, Observation.decode_temperature]
    rw [if_neg (by decide)]
  | val q =>
    obtain ⟨k, rfl, hk1, hk2⟩ := h
    have hv : Observation.encode_temperature_value (.val ((k : ℚ) / 10)) = k := by
      simp [Observation.encode_temperature_value, round_tenths]
    rw [hv]
    simp only [Observation.encode_temperature_flag, Observation.decode_temperature]
    rw [if_pos (by decide)]
    rw [toSigned16_int16be k (by omega) (by omega)]

/-- Decomposing a duration into hours, minutes and seconds bytes and
recombining them reproduces the duration, when the hour count fits in
one byte. -/
lemma meterTime_roundtrip (s : Nat) (hs : s ≤ 921599) :
    s / 3600 % 256 * 3600 + s % 3600 / 60 * 60 + s % 60 = s := by
  omega

/-! ## Claim theorems -/

/-- C3.  Per-channel encode rule: a non-finite channel temperature is
encoded as the placeholder -32768 with status flag 0x40; a finite one
as `round(value * 10)` with status flag 0x08 whatever its sign (no
separate negative flag bit), and the signed 16-bit big-endian byte pair
carries that signed value faithfully over the whole signed 16-bit
range. -/
theorem encode_channel_rule :
    Observation.encode_temperature_value .nan = -32768 ∧
    Observation.encode_temperature_flag .nan = 0x40 ∧
    (∀ q : ℚ, Observation.encode_temperature_value (.val q) = round (q * 10)) ∧
    (∀ q : ℚ, Observation.encode_temperature_flag (.val q) = 0x08) ∧
    (∀ k : Int, -32768 ≤ k → k ≤ 32767 →
      toSigned16 ((int16be k).getD 0 0 * 256 + (int16be k).getD 1 0) = k) := by
  refine ⟨rfl, rfl, fun _ => rfl, fun _ => rfl, fun k h1 h2 => ?_⟩
  simpa [int16be] using toSigned16_int16be k h1 h2

/-- Witness for C3 at a concrete negative value: -1234 passes through
the big-endian signed 16-bit byte pair unchanged. -/
theorem encode_channel_rule_witness :
    toSigned16 ((int16be (-1234)).getD 0 0 * 256 + (int16be (-1234)).getD 1 0) = -1234 :=
  encode_channel_rule.2.2.2.2 (-1234) (by norm_num) (by norm_num)

/-- C5.  Per-channel decode rule: whenever the valid bit 0x08 is set in
the status flag the decoded temperature is the raw signed 16-bit value
divided by 10, and whenever it is clear the decoded temperature is the
NaN sentinel, regardless of the other flag bits and of the measurement
word. -/
theorem decode_channel_rule (w flag : Nat) :
    (flag &&& 0x08 ≠ 0 →
      Observation.decode_temperature w flag = .val ((toSigned16 w : ℚ) / 10)) ∧
    (flag &&& 0x08 = 0 → Observation.decode_temperature w flag = .nan) := by
  unfold Observation.decode_temperature
  constructor
  · intro h
    rw [if_pos h]
  · intro h
    rw [if_neg (by simp [h])]

/-- Witness for C5: a set valid bit (flag 0x08) decodes 2958 to 295.8,
and a clear valid bit (flag 0x40, the all-invalid vector of the tests)
decodes to the NaN sentinel regardless of the placeholder word. -/
theorem decode_channel_rule_witness :
    Observation.decode_temperature 2958 0x08 = .val ((toSigned16 2958 : ℚ) / 10) ∧
    Observation.decode_temperature 32768 0x40 = .nan :=
  ⟨(decode_channel_rule 2958 0x08).1 (by decide),
   (decode_channel_rule 32768 0x40).2 (by decide)⟩

/-- C8.  `system_time` is never encoded: two observations equal in every
field except `system_time` encode to the same result, for all values of
the remaining fields. -/
theorem to_bytes_ignores_system_time
    (st st' : Option Nat) (mt : Option Nat)
    (tcf : EnumOrName ThermocoupleType) (tuf : EnumOrName TemperatureUnit)
    (temps : List Temp) :
    Observation.to_bytes ⟨st, mt, tcf, tuf, temps⟩ =
      Observation.to_bytes ⟨st', mt, tcf, tuf, temps⟩ := rfl

/-- C9.  String-name normalization on encode: replacing the enum
members of the thermocouple-type and unit fields by their member-name
strings leaves the encoded bytes unchanged, for every defined member
pair and all values of the other fields. -/
theorem to_bytes_name_normalization
    (tc : ThermocoupleType) (tu : TemperatureUnit)
    (st mt : Option Nat) (temps : List Temp) :
    Observation.to_bytes ⟨st, mt, .name tc.toName, .name tu.toName, temps⟩ =
      Observation.to_bytes ⟨st, mt, .enum tc, .enum tu, temps⟩ := by
  rcases temps with _ | ⟨t1, _ | ⟨t2, _ | ⟨t3, ts⟩⟩⟩ <;>
    cases tc <;> cases tu <;> rfl

/-- C2.  Decode acceptance: a buffer that is not exactly 18 bytes is
rejected with the size error, and on an 18-byte buffer the decoder
fails with the format error exactly when the header bytes are not
`65 14`, or the trailer bytes are not `0D 0A`, or the thermocouple-type
or unit byte masked with 0x0F is outside its enumerated range; every
conforming 18-byte buffer decodes to an observation. -/
theorem from_bytes_format_iff (now : Nat) :
    (∀ o : List Nat, o.length ≠ 18 →
      Observation.from_bytes now o = .error .sizeError) ∧
    (∀ b0 b1 b2 b3 b4 b5 b6 b7 b8 b9 b10 b11 b12 b13 b14 b15 b16 b17 : Nat,
      (Observation.from_bytes now
          [b0, b1, b2, b3, b4, b5, b6, b7, b8, b9, b10, b11, b12, b13, b14, b15, b16, b17] =
          .error .formatError ↔
        (¬(b0 = 0x65 ∧ b1 = 0x14) ∨ ¬(b16 = 0x0D ∧ b17 = 0x0A) ∨
          ThermocoupleType.ofNat? (b9 &&& 0x0F) = none ∨
          TemperatureUnit.ofNat? (b10 &&& 0x0F) = none)) ∧
      (b0 = 0x65 ∧ b1 = 0x14 → b16 = 0x0D ∧ b17 = 0x0A →
        ThermocoupleType.ofNat? (b9 &&& 0x0F) ≠ none →
        TemperatureUnit.ofNat? (b10 &&& 0x0F) ≠ none →
        ∃ y, Observation.from_bytes now
          [b0, b1, b2, b3, b4, b5, b6, b7, b8, b9, b10, b11, b12, b13, b14, b15, b16, b17] =
          .ok y)) := by
  constructor
  · intro o ho
    rcases o with _ | ⟨b0, o⟩
    · rfl
    rcases o with _ | ⟨b1, o⟩
    · rfl
    rcases o with _ | ⟨b2, o⟩
    · rfl
    rcases o with _ | ⟨b3, o⟩
    · rfl
    rcases o with _ | ⟨b4, o⟩
    · rfl
    rcases o with _ | ⟨b5, o⟩
    · rfl
    rcases o with _ | ⟨b6, o⟩
    · rfl
    rcases o with _ | ⟨b7, o⟩
    · rfl
    rcases o with _ | ⟨b8, o⟩
    · rfl
    rcases o with _ | ⟨b9, o⟩
    · rfl
    rcases o with _ | ⟨b10, o⟩
    · rfl
    rcases o with _ | ⟨b11, o⟩
    · rfl
    rcases o with _ | ⟨b12, o⟩
    · rfl
    rcases o with _ | ⟨b13, o⟩
    · rfl
    rcases o with _ | ⟨b14, o⟩
    · rfl
    rcases o with _ | ⟨b15, o⟩
    · rfl
    rcases o with _ | ⟨b16, o⟩
    · rfl
    rcases o with _ | ⟨b17, o⟩
    · rfl
    rcases o with _ | ⟨b18, o⟩
    · exact absurd rfl ho
    · rfl
  · intro b0 b1 b2 b3 b4 b5 b6 b7 b8 b9 b10 b11 b12 b13 b14 b15 b16 b17
    simp only [Observation.from_bytes]
    by_cases hc : b0 = 0x65 ∧ b1 = 0x14 ∧ b16 = 0x0D ∧ b17 = 0x0A
    · rw [if_pos hc]
      obtain ⟨hc0, hc1, hc16, hc17⟩ := hc
      rcases h9 : ThermocoupleType.ofNat? (b9 &&& 0x0F) with _ | tc <;>
        rcases h10 : TemperatureUnit.ofNat? (b10 &&& 0x0F) with _ | tu <;>
          simp [hc0, hc1, hc16, hc17, h9, h10]
    · rw [if_neg hc]
      constructor
      · constructor
        · intro _
          by_cases h01 : b0 = 0x65 ∧ b1 = 0x14
          · right
            left
            intro h1617
            exact hc ⟨h01.1, h01.2, h1617.1, h1617.2⟩
          · exact Or.inl h01
        · intro _
          rfl
      · intro h01 h1617 _ _
        exact absurd ⟨h01.1, h01.2, h1617.1, h1617.2⟩ hc

/-- Witness for C2: a 2-byte buffer is rejected with the size error,
and the conforming Kelvin test vector of the repository's tests decodes
to an observation. -/
theorem from_bytes_format_iff_witness :
    Observation.from_bytes 0 [0x65, 0x14] = .error .sizeError ∧
    ∃ y, Observation.from_bytes 0
      [0x65, 0x14, 0x00, 0x00, 0x00, 0x0B, 0x8E, 0x0B, 0x95, 0x01, 0x83,
       0x08, 0x08, 0x00, 0x02, 0x22, 0x0D, 0x0A] = .ok y :=
  ⟨(from_bytes_format_iff 0).1 [0x65, 0x14] (by decide),
   ((from_bytes_format_iff 0).2 0x65 0x14 0x00 0x00 0x00 0x0B 0x8E 0x0B 0x95
      0x01 0x83 0x08 0x08 0x00 0x02 0x22 0x0D 0x0A).2
    (by decide) (by decide) (by decide) (by decide)⟩

/-- A successful decode forces the shape of its input: the buffer has
exactly 18 bytes and starts with the header constant `65 14`. -/
lemma from_bytes_ok_shape (now : Nat) (m : List Nat) (y : Observation)
    (h : Observation.from_bytes now m = .ok y) :
    m.length = 18 ∧ m.take 2 = [0x65, 0x14] := by
  rcases m with _ | ⟨b0, m⟩
  · exact absurd h (by simp [Observation.from_bytes])
  rcases m with _ | ⟨b1, m⟩
  · exact absurd h (by simp [Observation.from_bytes])
  rcases m with _ | ⟨b2, m⟩
  · exact absurd h (by simp [Observation.from_bytes])
  rcases m with _ | ⟨b3, m⟩
  · exact absurd h (by simp [Observation.from_bytes])
  rcases m with _ | ⟨b4, m⟩
  · exact absurd h (by simp [Observation.from_bytes])
  rcases m with _ | ⟨b5, m⟩
  · exact absurd h (by simp [Observation.from_bytes])
  rcases m with _ | ⟨b6, m⟩
  · exact absurd h (by simp [Observation.from_bytes])
  rcases m with _ | ⟨b7, m⟩
  · exact absurd h (by simp [Observation.from_bytes])
  rcases m with _ | ⟨b8, m⟩
  · exact absurd h (by simp [Observation.from_bytes])
  rcases m with _ | ⟨b9, m⟩
  · exact absurd h (by simp [Observation.from_bytes])
  rcases m with _ | ⟨b10, m⟩
  · exact absurd h (by simp [Observation.from_bytes])
  rcases m with _ | ⟨b11, m⟩
  · exact absurd h (by simp [Observation.from_bytes])
  rcases m with _ | ⟨b12, m⟩
  · exact absurd h (by simp [Observation.from_bytes])
  rcases m with _ | ⟨b13, m⟩
  · exact absurd h (by simp [Observation.from_bytes])
  rcases m with _ | ⟨b14, m⟩
  · exact absurd h (by simp [Observation.from_bytes])
  rcases m with _ | ⟨b15, m⟩
  · exact absurd h (by simp [Observation.from_bytes])
  rcases m with _ | ⟨b16, m⟩
  · exact absurd h (by simp [Observation.from_bytes])
  rcases m with _ | ⟨b17, m⟩
  · exact absurd h (by simp [Observation.from_bytes])
  rcases m with _ | ⟨b18, m⟩
  · simp only [Observation.from_bytes] at h
    split at h
    · rename_i hc
      refine ⟨rfl, ?_⟩
      simp [List.take, hc.1, hc.2.1]
    · exact absurd h (by simp)
  · exact absurd h (by simp [Observation.from_bytes])

/-- One framer step: a buffer beginning with a decodable 18-byte
message yields that observation followed by whatever the framer
extracts from the rest of the buffer. -/
lemma parse_stream_cons (now : Nat) (m rest : List Nat) (obs : Observation)
    (hok : Observation.from_bytes now m = .ok obs) :
    Observation.parse_stream now (m ++ rest) =
      (obs :: (Observation.parse_stream now rest).1,
       (Observation.parse_stream now rest).2) := by
  obtain ⟨hlen, htake⟩ := from_bytes_ok_shape now m obs hok
  have hfh : findHeader (m ++ rest) = some 0 := by
    rcases m with _ | ⟨a, _ | ⟨b, m'⟩⟩
    · simp at hlen
    · simp at hlen
    · simp only [List.take, List.cons.injEq] at htake
      obtain ⟨rfl, rfl, -⟩ := htake
      simp [findHeader]
  have hnlt : ¬ ((m ++ rest).drop 0).length < 18 := by
    simp [List.length_append, hlen]
  have htk : ((m ++ rest).drop 0).take 18 = m := by
    simpa using List.take_left' hlen
  have hdp : ((m ++ rest).drop 0).drop 18 = rest := by
    simpa using List.drop_left' hlen
  rw [Observation.parse_stream, hfh]
  simp only [hnlt, dite_false, htk, hdp, hok]

/-- A short buffer that starts with the header constant is kept
verbatim as the remainder, with no observation extracted. -/
lemma parse_stream_short (now : Nat) (rest : List Nat)
    (h1 : rest.take 2 = [0x65, 0x14]) (h2 : rest.length < 18) :
    Observation.parse_stream now rest = ([], rest) := by
  rcases rest with _ | ⟨a, _ | ⟨b, t⟩⟩
  · simp at h1
  · simp [List.take] at h1
  · simp only [List.take, List.cons.injEq] at h1
    obtain ⟨rfl, rfl, -⟩ := h1
    have hfh : findHeader (0x65 :: 0x14 :: t) = some 0 := by
      simp [findHeader]
    rw [Observation.parse_stream, hfh]
    simp only [List.drop_zero]
    rw [dif_pos h2]

/-- C6.  The framer never fails: on every input it returns a pair of
extracted observations and remainder (it is a total function of the
buffer), and on the empty buffer it returns no observations and an
empty remainder. -/
theorem parse_stream_total_empty :
    (∀ now : Nat, Observation.parse_stream now [] = ([], [])) ∧
    (∀ (now : Nat) (buf : List Nat),
      ∃ obss rem, Observation.parse_stream now buf = (obss, rem)) := by
  constructor
  · intro now
    rw [Observation.parse_stream]
    rfl
  · intro now buf
    exact ⟨(Observation.parse_stream now buf).1,
           (Observation.parse_stream now buf).2, rfl⟩

/-- C7.  The framer extracts every complete, validly-framed message in
arrival order: a buffer that is a concatenation of decodable 18-byte
messages followed by a short leftover beginning with the header
constant yields exactly those observations, in order, with the leftover
returned verbatim as the remainder. -/
theorem parse_stream_extracts (now : Nat) (ms : List (List Nat))
    (obss : List Observation) (rest : List Nat)
    (hms : List.Forall₂ (fun m obs => Observation.from_bytes now m = .ok obs) ms obss)
    (h1 : rest.take 2 = [0x65, 0x14]) (h2 : rest.length < 18) :
    Observation.parse_stream now (ms.flatten ++ rest) = (obss, rest) := by
  induction hms with
  | nil =>
    simpa using parse_stream_short now rest h1 h2
  | cons hm htail ih =>
    rw [List.flatten_cons, List.append_assoc, parse_stream_cons now _ _ _ hm, ih]

/-- Unfolding of the encoder on a well-shaped observation whose enum
fields resolve: the emitted record, written out field by field. -/
lemma to_bytes_eq (st mt : Option Nat) (tcf : EnumOrName ThermocoupleType)
    (tuf : EnumOrName TemperatureUnit) (t1 t2 : Temp)
    (tc : ThermocoupleType) (tu : TemperatureUnit)
    (ht : tcf.resolve ThermocoupleType.ofName? = some tc)
    (hu : tuf.resolve TemperatureUnit.ofName? = some tu) :
    Observation.to_bytes ⟨st, mt, tcf, tuf, [t1, t2]⟩ =
      .ok (0x65 :: 0x14 :: 0 :: 0 :: 0 ::
        (int16be (Observation.encode_temperature_value t1) ++
         int16be (Observation.encode_temperature_value t2) ++
         tc.toNat :: (tu.toNat ||| 0x80) ::
         Observation.encode_temperature_flag t1 ::
         Observation.encode_temperature_flag t2 ::
         (encodeMeterTime (mt.getD 0) ++ [0x0D, 0x0A]))) := by
  simp only [Observation.to_bytes]
  rw [ht, hu]

/-- C1.  Codec round trip: an observation whose channel temperatures
are the NaN sentinel or expressible in tenths with magnitude below
3276.8, whose enum fields are defined members, and whose meter time has
an hour count fitting in one byte, encodes successfully, and decoding
those bytes reproduces `channel_temp`, `units`, `thermocouple_type` and
`meter_time` exactly (while `system_time` is freshly stamped). -/
theorem observation_roundtrip (now : Nat) (x : Observation)
    (tc : ThermocoupleType) (tu : TemperatureUnit) (s : Nat)
    (ht : x.thermocouple_type = .enum tc) (hu : x.units = .enum tu)
    (hm : x.meter_time = some s) (hs : s ≤ 921599)
    (hchan : ∀ t ∈ x.channel_temp, TempOk t)
    (hlen : x.channel_temp.length = 2) :
    ∃ bs y, Observation.to_bytes x = .ok bs ∧
      Observation.from_bytes now bs = .ok y ∧
      y.channel_temp = x.channel_temp ∧
      y.units = x.units ∧
      y.thermocouple_type = x.thermocouple_type ∧
      y.meter_time = x.meter_time := by
  obtain ⟨st, mt, tcf, tuf, temps⟩ := x
  have ht' : tcf = .enum tc := ht
  have hu' : tuf = .enum tu := hu
  have hm' : mt = some s := hm
  have hlen' : temps.length = 2 := hlen
  have hchan' : ∀ t ∈ temps, TempOk t := hchan
  subst ht' hu' hm'
  rcases temps with _ | ⟨t1, _ | ⟨t2, _ | ⟨t3, ts⟩⟩⟩
  · simp at hlen'
  · simp at hlen'
  · have h1 : TempOk t1 := hchan' t1 (by simp)
    have h2 : TempOk t2 := hchan' t2 (by simp)
    refine ⟨_, ⟨some now, some s, .enum tc, .enum tu, [t1, t2]⟩,
      to_bytes_eq st (some s) (.enum tc) (.enum tu) t1 t2 tc tu rfl rfl,
      ?_, rfl, rfl, rfl, rfl⟩
    simp only [int16be, encodeMeterTime, Option.getD_some,
      List.cons_append, List.nil_append]
    simp only [Observation.from_bytes]
    rw [if_pos (by simp)]
    simp only [ofNat?_toNat_land, ofNat?_toNat_lor_land]
    simp only [Except.ok.injEq, Observation.mk.injEq]
    refine ⟨by simp, ?_, by simp, by simp, ?_⟩
    · rw [meterTime_roundtrip s hs]
    · rw [channel_roundtrip t1 h1, channel_roundtrip t2 h2]
  · simp at hlen'

/-- A sample observation for the round-trip witness: Kelvin display,
K-type thermocouple, channel 1 at 295.8 and channel 2 invalid, meter
time 0:02:34; the `system_time` is an arbitrary clock stamp. -/
def sampleObservation : Observation :=
  ⟨some 99, some 154, .enum .K, .enum .K, [.val ((2958 : ℚ) / 10), .nan]⟩

/-- Witness for C1: the sample observation round-trips, reproducing its
channel temperatures, units, thermocouple type and meter time. -/
theorem observation_roundtrip_witness :
    ∃ bs y, Observation.to_bytes sampleObservation = .ok bs ∧
      Observation.from_bytes 0 bs = .ok y ∧
      y.channel_temp = sampleObservation.channel_temp ∧
      y.units = sampleObservation.units ∧
      y.thermocouple_type = sampleObservation.thermocouple_type ∧
      y.meter_time = sampleObservation.meter_time :=
  observation_roundtrip 0 sampleObservation .K .K 154 rfl rfl rfl (by omega)
    (by
      intro t htm
      simp only [sampleObservation, List.mem_cons, List.not_mem_nil, or_false] at htm
      rcases htm with rfl | rfl
      · exact ⟨2958, by norm_num, by norm_num, by norm_num⟩
      · exact trivial)
    rfl

/-- Counterexample for C4: an observation whose `channel_temp` has
exactly 2 elements but whose unit field is a string naming no defined
member; encode fails with the name-lookup error instead of producing 18
bytes, so encode does not always succeed on length-2 `channel_temp`. -/
theorem to_bytes_bad_name_cex :
    (Observation.mk none none (.enum .K) (.name "X") [.nan, .nan]).channel_temp.length = 2 ∧
    Observation.to_bytes ⟨none, none, .enum .K, .name "X", [.nan, .nan]⟩ =
      .error .nameError := by
  exact ⟨rfl, rfl⟩

/-- C4 (amended).  For an observation whose thermocouple-type and unit
fields resolve to defined members, encode produces exactly 18 bytes
when `channel_temp` has exactly 2 elements, and fails with `ShapeError`
when it does not. -/
theorem to_bytes_shape (x : Observation)
    (tc : ThermocoupleType) (tu : TemperatureUnit)
    (ht : x.thermocouple_type.resolve ThermocoupleType.ofName? = some tc)
    (hu : x.units.resolve TemperatureUnit.ofName? = some tu) :
    (x.channel_temp.length = 2 →
      ∃ bs, Observation.to_bytes x = .ok bs ∧ bs.length = 18) ∧
    (x.channel_temp.length ≠ 2 →
      Observation.to_bytes x = .error .shapeError) := by
  obtain ⟨st, mt, tcf, tuf, temps⟩ := x
  have ht' : tcf.resolve ThermocoupleType.ofName? = some tc := ht
  have hu' : tuf.resolve TemperatureUnit.ofName? = some tu := hu
  rcases temps with _ | ⟨t1, _ | ⟨t2, _ | ⟨t3, ts⟩⟩⟩
  · exact ⟨fun h => absurd h (by simp), fun _ => rfl⟩
  · exact ⟨fun h => absurd h (by simp), fun _ => rfl⟩
  · refine ⟨fun _ => ⟨_, to_bytes_eq st mt tcf tuf t1 t2 tc tu ht' hu', ?_⟩,
      fun h => absurd rfl h⟩
    simp [int16be, encodeMeterTime]
  · refine ⟨fun h => absurd h (by simp), fun _ => rfl⟩

/-- Witness for C4: a length-2 observation with defined enum members
encodes to an 18-byte record, and a length-1 observation is rejected
with the shape error. -/
theorem to_bytes_shape_witness :
    ∃ bs, Observation.to_bytes ⟨none, some 5, .enum .J, .enum .F, [.val 1, .nan]⟩ =
      .ok bs ∧ bs.length = 18 :=
  (to_bytes_shape ⟨none, some 5, .enum .J, .enum .F, [.val 1, .nan]⟩ .J .F rfl rfl).1 rfl

/-- Counterexample for C10: an observation whose `meter_time` is absent
but whose `channel_temp` is empty; encode fails with the shape error,
so absence of the meter time alone does not guarantee that encoding
succeeds. -/
theorem to_bytes_empty_channels_cex :
    (Observation.mk none none (.enum .K) (.enum .C) []).meter_time = none ∧
    Observation.to_bytes ⟨none, none, .enum .K, .enum .C, []⟩ =
      .error .shapeError := by
  exact ⟨rfl, rfl⟩

/-- C10 (amended).  For an observation with two channel temperatures
whose enum fields resolve to defined members, an absent `meter_time`
does not make encoding fail: the record is emitted with the zero
elapsed time `0:00:00` in the three meter-time bytes. -/
theorem to_bytes_absent_meter (st : Option Nat)
    (tcf : EnumOrName ThermocoupleType) (tuf : EnumOrName TemperatureUnit)
    (t1 t2 : Temp) (tc : ThermocoupleType) (tu : TemperatureUnit)
    (ht : tcf.resolve ThermocoupleType.ofName? = some tc)
    (hu : tuf.resolve TemperatureUnit.ofName? = some tu) :
    Observation.to_bytes ⟨st, none, tcf, tuf, [t1, t2]⟩ =
      .ok (0x65 :: 0x14 :: 0 :: 0 :: 0 ::
        (int16be (Observation.encode_temperature_value t1) ++
         int16be (Observation.encode_temperature_value t2) ++
         tc.toNat :: (tu.toNat ||| 0x80) ::
         Observation.encode_temperature_flag t1 ::
         Observation.encode_temperature_flag t2 ::
         ([0, 0, 0] ++ [0x0D, 0x0A]))) :=
  to_bytes_eq st none tcf tuf t1 t2 tc tu ht hu

/-- Witness for C10: a meter-time-free observation encodes, and its
three meter-time bytes (offsets 13-15) are zero. -/
theorem to_bytes_absent_meter_witness :
    Observation.to_bytes ⟨none, none, .name "N", .name "K", [.nan, .nan]⟩ =
      .ok (0x65 :: 0x14 :: 0 :: 0 :: 0 ::
        (int16be (Observation.encode_temperature_value .nan) ++
         int16be (Observation.encode_temperature_value .nan) ++
         ThermocoupleType.toNat .N :: (TemperatureUnit.toNat .K ||| 0x80) ::
         Observation.encode_temperature_flag .nan ::
         Observation.encode_temperature_flag .nan ::
         ([0, 0, 0] ++ [0x0D, 0x0A]))) :=
  to_bytes_absent_meter none (.name "N") (.name "K") .nan .nan .N .K rfl rfl

/-- The Kelvin test vector of the repository's tests: both channels
valid (295.8 and 296.5 kelvins), K-type thermocouple, meter time
0:02:34. -/
def kelvinVector : List Nat :=
  [0x65, 0x14, 0x00, 0x00, 0x00, 0x0B, 0x8E, 0x0B, 0x95, 0x01, 0x83,
   0x08, 0x08, 0x00, 0x02, 0x22, 0x0D, 0x0A]

/-- Witness for C7: a valid message followed by the two header bytes
and one extra byte yields exactly that observation and exactly those
three trailing bytes as the remainder. -/
theorem parse_stream_extracts_witness :
    Observation.parse_stream 0 ([kelvinVector].flatten ++ [0x65, 0x14, 0xFF]) =
      ([⟨some 0, some 154, .enum .K, .enum .K,
         [.val ((2958 : ℚ) / 10), .val ((2965 : ℚ) / 10)]⟩],
       [0x65, 0x14, 0xFF]) :=
  parse_stream_extracts 0 [kelvinVector]
    [⟨some 0, some 154, .enum .K, .enum .K,
      [.val ((2958 : ℚ) / 10), .val ((2965 : ℚ) / 10)]⟩]
    [0x65, 0x14, 0xFF]
    (List.Forall₂.cons rfl List.Forall₂.nil) (by decide) (by decide)

end TC2100
